import Mathlib

/-
Verification development for the YBT check-in scripts.

The definitions below are a shallow embedding of the cache variant of
src/ybt_sign.js (functions getTodayString consumers, readCache, writeCache,
saveToCacheIfFirstSign, getFromCache, getUserList, performSign,
processSignResult, formatNotifyMessage) and of src/scripts/YBT/sendNotify.js
(the seven channel functions and sendNotify).

Modelling conventions:
- JavaScript strings are modelled by Lean `String` (character counts stand in
  for UTF-16 code-unit counts).
- A JSON field that may be absent (or of the wrong type) is an `Option`;
  `typeof x === 'number'` becomes `Option.isSome`.
- JavaScript truthiness of strings and numbers ("" and 0 are falsy) is made
  explicit through the `jsStrOr` / `jsNatOr` / `jsNatFalsy` / `jsStrFalsy`
  helpers, which model the `x || default` idiom.
- The cache file is modelled after JSON parsing: an association list from
  username to entry, in object key order.  File system reads/writes become
  explicit state passing: a function that mutates the cache file returns the
  new file content.
- The HTTP layer is an oracle: for the sign-in request, a function from the
  attempt index to what axios produced for that attempt; for notification
  channels, a function from the channel name to whether its single HTTP call
  delivered (exceptions thrown by axios are caught by each channel's
  try/catch and collapse to `false`, exactly as in the source).
-/

namespace Ybt

/-- Models the JavaScript idiom `v || d` for an optional string field of a
parsed JSON object: `undefined` and the empty string are falsy. -/
def jsStrOr (v : Option String) (d : String) : String :=
  match v with
  | some s => if s = "" then d else s
  | none => d

/-- Models the JavaScript idiom `v || d` for an optional numeric field of a
parsed JSON object: `undefined` and `0` are falsy. -/
def jsNatOr (v : Option Nat) (d : Nat) : Nat :=
  match v with
  | some n => if n = 0 then d else n
  | none => d

/-- Models `n || d` for a number that is known to be present (`0` is falsy). -/
def jsNatFalsy (n d : Nat) : Nat := if n = 0 then d else n

/-- Models `s || d` for a string that is known to be present (`""` is falsy). -/
def jsStrFalsy (s d : String) : String := if s = "" then d else s

/-- Models rendering of an optional value inside a JavaScript template
literal: an absent value prints as the string `undefined`. -/
def renderOptStr (v : Option String) : String :=
  match v with
  | some s => s
  | none => "undefined"

/-- Models rendering of an optional number inside a template literal. -/
def renderOptNat (v : Option Nat) : String :=
  match v with
  | some n => Nat.repr n
  | none => "undefined"

/-- Boolean substring test, modelling JavaScript `String.prototype.includes`. -/
def strIncludes (s sub : String) : Bool :=
  decide (sub.toList <:+: s.toList)

/-- CONFIG.MAX_RETRY from src/ybt_sign.js (cache variant): the maximal number
of retries beyond the initial attempt. -/
def CONFIG_MAX_RETRY : Nat := 3

/-- CONFIG.RETRY_DELAY from src/ybt_sign.js (cache variant): the delay in
milliseconds inserted before each retry (2000 ms = 2 s). -/
def CONFIG_RETRY_DELAY : Nat := 2000

/-- The `data` object inside the upstream response body.  Each field is
optional because the upstream includes the traffic numbers only on the first
sign-in of the day; `none` models an absent (or non-numeric) field. -/
structure SignData where
  sign_status : Option Bool
  sign_count : Option Nat
  get_traffic : Option Nat
  total_traffic : Option Nat
  message : Option String
deriving DecidableEq

/-- The parsed upstream response body: a `data` object (absent when the body
lacks it) and an optional top-level `message` (used for 用户不存在). -/
structure RespBody where
  data : Option SignData
  message : Option String
deriving DecidableEq

/-- The value returned by performSign: either an answered response
(success, status, data) or a transport failure (error message and code). -/
structure SignResult where
  success : Bool
  status : Option Nat
  data : Option RespBody
  error : Option String
  code : Option String
deriving DecidableEq

/-- One entry of the day-cache file ybt_sign_cache.json, exactly the object
written by saveToCacheIfFirstSign. -/
structure CacheEntry where
  date : String
  sign_count : Nat
  get_traffic : Nat
  total_traffic : Nat
  message : String
  timestamp : String
deriving DecidableEq

/-- The per-account outcome record built by processSignResult (cache
variant), with the isFirstSign and dataSource fields. -/
structure Outcome where
  username : String
  success : Bool
  message : String
  details : String
  isFirstSign : Bool
  dataSource : String
deriving DecidableEq

/-- What one axios invocation of the sign-in endpoint produced: an answered
response (validateStatus accepts exactly HTTP 200 and 400, so `answered`
carries the status the source would see), or a transport error with the
axios error message and code. -/
inductive Attempt where
  | answered (status : Nat) (body : Option RespBody)
  | transportError (message : String) (code : Option String)
deriving DecidableEq

/-- The retry condition of performSign: code ECONNRESET, ETIMEDOUT or
ENOTFOUND, or an error message containing the substring timeout. -/
def isRetryableError (message : String) (code : Option String) : Bool :=
  code == some "ECONNRESET" || code == some "ETIMEDOUT" ||
    code == some "ENOTFOUND" || strIncludes message "timeout"

/-- Embedding of performSign (src/ybt_sign.js, cache variant, lines 516-563).
The oracle `env` gives the result of the axios call for each attempt index;
attempt number `retryCount` consults `env retryCount`.  The second component
collects the delays (in ms) inserted before retries, one CONFIG_RETRY_DELAY
per retry, so its length is the number of retries performed. -/
def performSign (env : Nat → Attempt) (retryCount : Nat) : SignResult × List Nat :=
  match env retryCount with
  | Attempt.answered status body =>
      ({ success := true, status := some status, data := body,
         error := none, code := none }, [])
  | Attempt.transportError msg code =>
      if h : retryCount < CONFIG_MAX_RETRY ∧ isRetryableError msg code = true then
        let rest := performSign env (retryCount + 1)
        (rest.1, CONFIG_RETRY_DELAY :: rest.2)
      else
        ({ success := false, status := none, data := none,
           error := some msg, code := code }, [])
termination_by CONFIG_MAX_RETRY - retryCount
decreasing_by
  simp only [CONFIG_MAX_RETRY] at *
  omega

/-- Character-level splitting on a separator predicate, the semantics of
the JavaScript `String.prototype.split(/[\n&]/)` call: consecutive
separators produce empty pieces and the result is never empty. -/
def splitOnSep (p : Char → Bool) : List Char → List (List Char)
  | [] => [[]]
  | c :: rest =>
      if p c then [] :: splitOnSep p rest
      else
        match splitOnSep p rest with
        | [] => [[c]]
        | g :: gs => (c :: g) :: gs

/-- Character-level trim, the semantics of `String.prototype.trim`: drop
leading and trailing whitespace. -/
def trimChars (cs : List Char) : List Char :=
  ((cs.dropWhile Char.isWhitespace).reverse.dropWhile Char.isWhitespace).reverse

/-- Embedding of getUserList (cache variant, lines 501-513): split the
YBT_USERS environment value on newline or ampersand, trim each piece, and
drop empty pieces.  `none` models an unset environment variable; an unset or
empty value yields the empty list (the `if (!users)` guard). -/
def getUserList (users : Option String) : List String :=
  match users with
  | none => []
  | some s =>
      if s = "" then []
      else (((splitOnSep (fun c => c == '\n' || c == '&') s.toList).map
        (fun cs => String.mk (trimChars cs))).filter (fun u => u.length > 0))

/-- Lookup of `cache[username]` in the parsed cache object. -/
def objLookup (cache : List (String × CacheEntry)) (username : String) :
    Option CacheEntry :=
  match cache.find? (fun p => p.1 == username) with
  | some p => some p.2
  | none => none

/-- Assignment `cache[username] = entry` on the parsed cache object: replace
the value in place when the key exists, otherwise append the new pair. -/
def objInsert (cache : List (String × CacheEntry)) (username : String)
    (entry : CacheEntry) : List (String × CacheEntry) :=
  if cache.any (fun p => p.1 == username) then
    cache.map (fun p => if p.1 == username then (username, entry) else p)
  else
    cache ++ [(username, entry)]

/-- The purge loop inside readCache (lines 430-434): keep exactly the
entries whose date field is today. -/
def purgeCache (file : List (String × CacheEntry)) (today : String) :
    List (String × CacheEntry) :=
  file.filter (fun p => p.2.date == today)

/-- Embedding of readCache (cache variant, lines 417-447) on an already
parsed cache file.  Returns the cleaned mapping together with the cache-file
content after the call: the file is rewritten (to the cleaned mapping) only
when the purge removed at least one entry. -/
def readCache (file : List (String × CacheEntry)) (today : String) :
    List (String × CacheEntry) × List (String × CacheEntry) :=
  if (purgeCache file today).length ≠ file.length then
    (purgeCache file today, purgeCache file today)
  else (purgeCache file today, file)

/-- Embedding of saveToCacheIfFirstSign (cache variant, lines 459-482):
when called for a first sign with sign data present, read (and purge) the
cache, assign the new entry under the username, and write the file back.
Returns the cache-file content after the call. -/
def saveToCacheIfFirstSign (file : List (String × CacheEntry))
    (username : String) (signData : Option SignData) (isFirstSign : Bool)
    (today nowTs : String) : List (String × CacheEntry) :=
  if isFirstSign = false ∨ signData = none then file
  else
    match signData with
    | none => file
    | some sd =>
        let cache := (readCache file today).1
        objInsert cache username
          { date := today,
            sign_count := jsNatOr sd.sign_count 0,
            get_traffic := jsNatOr sd.get_traffic 0,
            total_traffic := jsNatOr sd.total_traffic 0,
            message := jsStrOr sd.message "签到成功",
            timestamp := nowTs }

/-- Embedding of getFromCache (cache variant, lines 485-499): read (and
purge) the cache and return the entry for the username when its date is
today.  The second component is the cache-file content after the call (the
purge inside readCache may rewrite the file). -/
def getFromCache (file : List (String × CacheEntry)) (username : String)
    (today : String) : Option CacheEntry × List (String × CacheEntry) :=
  match objLookup (readCache file today).1 username with
  | some e =>
      if e.date = today then (some e, (readCache file today).2)
      else (none, (readCache file today).2)
  | none => (none, (readCache file today).2)

/-- Renders a SignData object the way JSON.stringify would, listing the
fields that are present in object order. -/
def stringifySignData (sd : SignData) : String :=
  let fields :=
    (match sd.sign_status with
     | some b => ["\"sign_status\":" ++ (if b then "true" else "false")]
     | none => []) ++
    (match sd.sign_count with
     | some n => ["\"sign_count\":" ++ Nat.repr n]
     | none => []) ++
    (match sd.get_traffic with
     | some n => ["\"get_traffic\":" ++ Nat.repr n]
     | none => []) ++
    (match sd.total_traffic with
     | some n => ["\"total_traffic\":" ++ Nat.repr n]
     | none => []) ++
    (match sd.message with
     | some s => ["\"message\":\"" ++ s ++ "\""]
     | none => [])
  "\x7b" ++ String.intercalate "," fields ++ "\x7d"

/-- Renders the response body the way `JSON.stringify(data)` does in the
diagnostic branch of processSignResult (an absent body prints as
undefined inside the template literal). -/
def stringifyBody (body : Option RespBody) : String :=
  match body with
  | none => "undefined"
  | some b =>
      let fields :=
        (match b.data with
         | some sd => ["\"data\":" ++ stringifySignData sd]
         | none => []) ++
        (match b.message with
         | some s => ["\"message\":\"" ++ s ++ "\""]
         | none => [])
      "\x7b" ++ String.intercalate "," fields ++ "\x7d"

/-- The outcome record returned by processSignResult when performSign
reported a transport failure (lines 567-576). -/
def failureOutcome (username : String) (result : SignResult) : Outcome :=
  { username := username, success := false,
    message := "签到失败: " ++ renderOptStr result.error,
    details := "错误代码: " ++ jsStrOr result.code "UNKNOWN",
    isFirstSign := false, dataSource := "error" }

/-- The final two branches of processSignResult (lines 641-661): the
用户不存在 check on the top-level message, then the diagnostic fallback. -/
def notFoundOrOther (username : String) (result : SignResult) : Outcome :=
  let other : Outcome :=
    { username := username, success := false, message := "签到失败",
      details := "HTTP状态: " ++ renderOptNat result.status ++ ", 响应: " ++
        stringifyBody result.data,
      isFirstSign := false, dataSource := "error" }
  match result.data with
  | some body =>
      if body.message = some "用户不存在" then
        { username := username, success := false, message := "用户不存在",
          details := "请检查用户名是否正确",
          isFirstSign := false, dataSource := "error" }
      else other
  | none => other

/-- The SUCCESS_FIRST outcome (lines 591-601). -/
def firstSignOutcome (username : String) (sd : SignData) : Outcome :=
  { username := username, success := true, message := "签到成功",
    details := jsStrOr sd.message "签到成功" ++ "\n" ++
      "累计签到: " ++ Nat.repr (jsNatOr sd.sign_count 0) ++ " 天\n" ++
      "获得流量: " ++ Nat.repr (jsNatOr sd.get_traffic 0) ++ " MB\n" ++
      "总流量: " ++ Nat.repr (jsNatOr sd.total_traffic 0) ++ " MB",
    isFirstSign := true, dataSource := "api" }

/-- The SUCCESS_CACHED outcome built from a cache entry (lines 613-624). -/
def cachedOutcome (username : String) (ce : CacheEntry) : Outcome :=
  { username := username, success := true, message := "今日已签到",
    details := jsStrFalsy ce.message "今日已签到" ++ "\n" ++
      "累计签到: " ++ Nat.repr (jsNatFalsy ce.sign_count 0) ++ " 天\n" ++
      "获得流量: " ++ Nat.repr (jsNatFalsy ce.get_traffic 0) ++ " MB\n" ++
      "总流量: " ++ Nat.repr (jsNatFalsy ce.total_traffic 0) ++ " MB",
    isFirstSign := false, dataSource := "cache" }

/-- The SUCCESS_LIMITED outcome (lines 626-636). -/
def limitedOutcome (username : String) (sd : SignData) : Outcome :=
  { username := username, success := true, message := "今日已签到",
    details := jsStrOr sd.message "今日已签到" ++ "\n" ++
      "累计签到: " ++ Nat.repr (jsNatOr sd.sign_count 0) ++ " 天\n" ++
      "(流量信息需首次签到获取)",
    isFirstSign := false, dataSource := "api_limited" }

/-- Embedding of processSignResult (cache variant, lines 566-662).  The
cache file is passed in and the (possibly rewritten) file is returned next
to the outcome:
- transport failure: error outcome, file untouched;
- HTTP 200 body with sign_status true and both traffic fields numeric:
  SUCCESS_FIRST, and saveToCacheIfFirstSign writes the entry;
- otherwise, a body with sign_status true: getFromCache decides between
  SUCCESS_CACHED and SUCCESS_LIMITED (the purge inside its readCache may
  rewrite the file);
- otherwise the 用户不存在 / diagnostic branches, file untouched. -/
def processSignResult (username : String) (result : SignResult)
    (file : List (String × CacheEntry)) (today nowTs : String) :
    Outcome × List (String × CacheEntry) :=
  if result.success = false then (failureOutcome username result, file)
  else
    match result.data with
    | some body =>
        (match body.data with
         | some sd =>
             if result.status = some 200 ∧ sd.sign_status = some true ∧
                 sd.get_traffic.isSome = true ∧ sd.total_traffic.isSome = true then
               (firstSignOutcome username sd,
                saveToCacheIfFirstSign file username (some sd) true today nowTs)
             else if sd.sign_status = some true then
               (match getFromCache file username today with
                | (some cachedData, file2) => (cachedOutcome username cachedData, file2)
                | (none, file2) => (limitedOutcome username sd, file2))
             else (notFoundOrOther username result, file)
         | none => (notFoundOrOther username result, file))
    | none => (notFoundOrOther username result, file)

/-- The successCount computed at the top of formatNotifyMessage (line 666). -/
def reportSuccessCount (results : List Outcome) : Nat :=
  (results.filter (fun r => r.success)).length

/-- The totalCount computed at the top of formatNotifyMessage (line 667):
the plain length of the results array, one entry per processed account. -/
def reportTotalCount (results : List Outcome) : Nat :=
  results.length

/-- The firstSignCount of formatNotifyMessage (line 669). -/
def reportFirstSignCount (results : List Outcome) : Nat :=
  (results.filter (fun r => r.isFirstSign)).length

/-- The cachedCount of formatNotifyMessage (line 670). -/
def reportCachedCount (results : List Outcome) : Nat :=
  (results.filter (fun r => r.dataSource == "cache")).length

/-- Formatting of one detail line of one per-account section
(lines 712-724 of formatNotifyMessage). -/
def formatDetailLine (detail : String) : String :=
  if strIncludes detail "累计签到:" then "   📅 " ++ detail ++ "\n"
  else if strIncludes detail "获得流量:" then "   📈 " ++ detail ++ "\n"
  else if strIncludes detail "总流量:" then "   💾 " ++ detail ++ "\n"
  else if detail.trim ≠ "" ∧ ¬ strIncludes detail "流量信息需首次签到获取" then
    "   💬 " ++ detail ++ "\n"
  else if strIncludes detail "流量信息需首次签到获取" then
    "   ⚠️ " ++ detail ++ "\n"
  else ""

/-- One per-account section of the report (lines 695-726 of
formatNotifyMessage); `index` is the zero-based position in the results. -/
def formatResultEntry (index : Nat) (result : Outcome) : String :=
  let status := if result.success then "✅" else "❌"
  let dataSourceIcon :=
    if result.dataSource == "cache" then " 💾"
    else if result.isFirstSign then " 🆕" else ""
  let head := "\n" ++ Nat.repr (index + 1) ++ ". " ++ status ++ " " ++
    result.username ++ dataSourceIcon ++ "\n" ++
    "   状态: " ++ result.message ++ "\n"
  if result.details ≠ "" then
    let detailLines := (result.details.splitOn "\n").filter
      (fun line => line.trim ≠ "")
    head ++ String.join (detailLines.map formatDetailLine)
  else head

/-- Embedding of formatNotifyMessage (cache variant, lines 665-742).  The
wall-clock footer timestamp is passed in as `now`. -/
def formatNotifyMessage (results : List Outcome) (now : String) : String :=
  let successCount := reportSuccessCount results
  let totalCount := reportTotalCount results
  let failCount := totalCount - successCount
  let firstSignCount := reportFirstSignCount results
  let cachedCount := reportCachedCount results
  ("🎯 YBT 自动签到报告\n" ++ String.mk (List.replicate 30 '=') ++ "\n\n" ++
    "📊 执行概览:\n") ++
  ("• 总账号数: " ++ Nat.repr totalCount ++ " 个\n") ++
  (("• 签到成功: " ++ Nat.repr successCount ++ " 个\n") ++
   (if firstSignCount > 0 then
      "• 首次签到: " ++ Nat.repr firstSignCount ++ " 个 🆕\n" else "") ++
   (if cachedCount > 0 then
      "• 缓存数据: " ++ Nat.repr cachedCount ++ " 个 💾\n" else "") ++
   (if failCount > 0 then
      "• 签到失败: " ++ Nat.repr failCount ++ " 个\n" else "") ++
   "\n" ++ "📋 详细结果:\n" ++ String.mk (List.replicate 25 '-') ++ "\n" ++
   String.join ((results.enum.map (fun p => formatResultEntry p.1 p.2))) ++
   ("\n" ++ String.mk (List.replicate 30 '=') ++ "\n" ++
    "🕐 " ++ now ++ "\n" ++ "🤖 青龙面板自动执行" ++
    (if cachedCount > 0 then "\n💡 💾标记表示使用缓存数据" else "") ++
    (if firstSignCount > 0 then "\n💡 🆕标记表示今日首次签到" else "")))

/-- The per-account loop of main (cache variant, lines 792-821): accounts
are processed one at a time and exactly one outcome is pushed per account
(both the normal path and the catch path push one record).  The per-account
outcome is abstracted by `outcomeOf`. -/
def runResults (users : List String) (outcomeOf : String → Outcome) :
    List Outcome :=
  users.map outcomeOf

/-- Specification version of the account-list reading, following the
spec's words (section 3: duplicates and blanks are stripped): the source's
split/trim/filter pipeline followed by duplicate removal.  Defined only to
be compared against getUserList, which performs no deduplication. -/
def getUserListSpec (s : String) : List String :=
  ((((splitOnSep (fun c => c == '\n' || c == '&') s.toList).map
    (fun cs => String.mk (trimChars cs))).filter
      (fun u => u.length > 0))).dedup

/-- Sample per-account outcome used by concrete report witnesses. -/
def sampleOutcome (u : String) : Outcome :=
  { username := u, success := true, message := "签到成功", details := "",
    isFirstSign := true, dataSource := "api" }

/-- Answered HTTP 200 response whose body carries sign_status false
together with numeric get_traffic and total_traffic fields: the input that
claim C1 speaks about. -/
def c1FalseResult : SignResult :=
  { success := true, status := some 200,
    data := some
      { data := some
          { sign_status := some false, sign_count := some 10,
            get_traffic := some 50, total_traffic := some 500,
            message := some "签到成功" },
        message := none },
    error := none, code := none }

/-- Same response but with sign_status true: the input of the amended C1. -/
def c1TrueResult : SignResult :=
  { success := true, status := some 200,
    data := some
      { data := some
          { sign_status := some true, sign_count := some 10,
            get_traffic := some 50, total_traffic := some 500,
            message := some "签到成功" },
        message := none },
    error := none, code := none }

/-- Answered HTTP 400 already-signed response without traffic numbers. -/
def c9Result400 : SignResult :=
  { success := true, status := some 400,
    data := some
      { data := some
          { sign_status := some true, sign_count := some 10,
            get_traffic := none, total_traffic := none,
            message := some "今日已签到" },
        message := none },
    error := none, code := none }

end Ybt

namespace Notify

/-- The credential environment variables consulted by
src/scripts/YBT/sendNotify.js; `none` models an unset variable. -/
structure NotifyEnv where
  PUSH_KEY : Option String
  SCKEY : Option String
  TG_BOT_TOKEN : Option String
  TG_USER_ID : Option String
  DD_BOT_TOKEN : Option String
  DD_BOT_SECRET : Option String
  WW_BOT_KEY : Option String
  BARK_PUSH : Option String
  PUSH_PLUS_TOKEN : Option String
  FEISHU_BOT_TOKEN : Option String
deriving DecidableEq

/-- JavaScript truthiness of an environment variable value: unset and the
empty string are falsy. -/
def jsTruthyOpt (v : Option String) : Bool :=
  match v with
  | some s => s ≠ ""
  | none => false

/-- JavaScript truthiness of a string (the `!title` test). -/
def jsTruthyStr (s : String) : Bool := s ≠ ""

/-- Models `a || b` on two environment variable values
(process.env.PUSH_KEY || process.env.SCKEY). -/
def jsOrOpt (a b : Option String) : Option String :=
  if jsTruthyOpt a then a else b

/-- A channel function takes the environment, the HTTP oracle (whether the
channel's single HTTP call delivers; axios exceptions are caught by the
channel's try/catch and collapse to a `false` outcome), the title and the
content, and returns whether the channel reported success together with the
number of HTTP calls it performed. -/
def ChannelFun : Type :=
  NotifyEnv → (String → Bool) → String → String → Bool × Nat

/-- Embedding of serverChanNotify (sendNotify.js lines 31-51): enabled by
PUSH_KEY or SCKEY; one POST when enabled. -/
def serverChanNotify : ChannelFun := fun env http _title _content =>
  if jsTruthyOpt (jsOrOpt env.PUSH_KEY env.SCKEY) = false then (false, 0)
  else (http "Server酱", 1)

/-- Embedding of telegramNotify (lines 54-76): needs both TG_BOT_TOKEN and
TG_USER_ID. -/
def telegramNotify : ChannelFun := fun env http _title _content =>
  if jsTruthyOpt env.TG_BOT_TOKEN = false ∨ jsTruthyOpt env.TG_USER_ID = false then
    (false, 0)
  else (http "Telegram", 1)

/-- Embedding of dingTalkNotify (lines 79-112): needs DD_BOT_TOKEN
(DD_BOT_SECRET only changes the signed URL, not the call count). -/
def dingTalkNotify : ChannelFun := fun env http _title _content =>
  if jsTruthyOpt env.DD_BOT_TOKEN = false then (false, 0)
  else (http "钉钉机器人", 1)

/-- Embedding of workWechatNotify (lines 115-135): needs WW_BOT_KEY. -/
def workWechatNotify : ChannelFun := fun env http _title _content =>
  if jsTruthyOpt env.WW_BOT_KEY = false then (false, 0)
  else (http "企业微信", 1)

/-- Embedding of barkNotify (lines 138-157): needs BARK_PUSH. -/
def barkNotify : ChannelFun := fun env http _title _content =>
  if jsTruthyOpt env.BARK_PUSH = false then (false, 0)
  else (http "Bark", 1)

/-- Embedding of pushPlusNotify (lines 160-178): needs PUSH_PLUS_TOKEN. -/
def pushPlusNotify : ChannelFun := fun env http _title _content =>
  if jsTruthyOpt env.PUSH_PLUS_TOKEN = false then (false, 0)
  else (http "PushPlus", 1)

/-- Embedding of feishuNotify (lines 181-201): needs FEISHU_BOT_TOKEN. -/
def feishuNotify : ChannelFun := fun env http _title _content =>
  if jsTruthyOpt env.FEISHU_BOT_TOKEN = false then (false, 0)
  else (http "飞书", 1)

/-- The notifyMethods table of sendNotify (lines 221-229), in source order. -/
def notifyMethods : List (String × ChannelFun) :=
  [("Server酱", serverChanNotify),
   ("Telegram", telegramNotify),
   ("钉钉机器人", dingTalkNotify),
   ("企业微信", workWechatNotify),
   ("Bark", barkNotify),
   ("PushPlus", pushPlusNotify),
   ("飞书", feishuNotify)]

/-- Whether a channel is enabled (its credential environment variables are
set and non-empty), by channel name. -/
def channelEnabled (env : NotifyEnv) : String → Bool
  | "Server酱" => jsTruthyOpt (jsOrOpt env.PUSH_KEY env.SCKEY)
  | "Telegram" => jsTruthyOpt env.TG_BOT_TOKEN && jsTruthyOpt env.TG_USER_ID
  | "钉钉机器人" => jsTruthyOpt env.DD_BOT_TOKEN
  | "企业微信" => jsTruthyOpt env.WW_BOT_KEY
  | "Bark" => jsTruthyOpt env.BARK_PUSH
  | "PushPlus" => jsTruthyOpt env.PUSH_PLUS_TOKEN
  | "飞书" => jsTruthyOpt env.FEISHU_BOT_TOKEN
  | _ => false

/-- A NotifyEnv with no credential environment variable set at all. -/
def emptyEnv : NotifyEnv :=
  { PUSH_KEY := none, SCKEY := none, TG_BOT_TOKEN := none, TG_USER_ID := none,
    DD_BOT_TOKEN := none, DD_BOT_SECRET := none, WW_BOT_KEY := none,
    BARK_PUSH := none, PUSH_PLUS_TOKEN := none, FEISHU_BOT_TOKEN := none }

/-- The content-length cap applied by sendNotify (lines 214-216): bodies
longer than 4000 characters are cut at 4000 and the truncation marker is
appended. -/
def truncateContent (content : String) : String :=
  if content.length > 4000 then
    content.take 4000 ++ "\n\n...(内容过长已截断)"
  else content

/-- The title default of sendNotify (line 211). -/
def titleOrDefault (title : String) : String :=
  if jsTruthyStr title then title else "青龙面板通知"

/-- The observable result of one sendNotify call: the returned boolean, the
per-method (name, success) records, the total number of HTTP calls across
all channels, and the single content string that was passed to every
channel function during fan-out. -/
structure NotifyRun where
  returned : Bool
  results : List (String × Bool)
  httpCalls : Nat
  contentSent : String
deriving DecidableEq

/-- Embedding of sendNotify (sendNotify.js, lines 204-257): reject when
title and content are both falsy, apply the title default, truncate the
content once, invoke every method of notifyMethods with the same title and
content, count successes, and return whether at least one method succeeded.
The per-method try/catch of the fan-out (lines 235-244) and the try/catch
inside each channel guarantee totality, so the embedding is a total
function and no exception crosses the sendNotify boundary. -/
def sendNotify (env : NotifyEnv) (http : String → Bool)
    (title content : String) : NotifyRun :=
  if jsTruthyStr title = false ∧ jsTruthyStr content = false then
    { returned := false, results := [], httpCalls := 0, contentSent := content }
  else
    let title2 := titleOrDefault title
    let content2 := truncateContent content
    let outcomes := notifyMethods.map (fun m => (m.1, m.2 env http title2 content2))
    let results := outcomes.map (fun o => (o.1, o.2.1))
    let successCount := (results.filter (fun r => r.2)).length
    { returned := decide (successCount > 0),
      results := results,
      httpCalls := (outcomes.map (fun o => o.2.2)).sum,
      contentSent := content2 }

end Notify

namespace Ybt

theorem purgeCache_mem_date {file : List (String × CacheEntry)} {today : String}
    {p : String × CacheEntry} (hp : p ∈ purgeCache file today) : p.2.date = today := by
  have h := List.mem_filter.mp hp
  simpa using h.2

theorem purgeCache_sub {file : List (String × CacheEntry)} {today : String}
    {p : String × CacheEntry} (hp : p ∈ purgeCache file today) : p ∈ file :=
  (List.mem_filter.mp hp).1

theorem purgeCache_idem (file : List (String × CacheEntry)) (today : String) :
    purgeCache (purgeCache file today) today = purgeCache file today := by
  apply List.filter_eq_self.mpr
  intro p hp
  simpa using purgeCache_mem_date hp

theorem filter_length_eq {α : Type} (p : α → Bool) (l : List α)
    (h : (l.filter p).length = l.length) : l.filter p = l := by
  induction l with
  | nil => rfl
  | cons a t ih =>
      by_cases hpa : p a = true
      · simp only [List.filter_cons, hpa, if_true, List.length_cons] at h ⊢
        rw [ih (by omega)]
      · simp only [List.filter_cons, hpa] at h
        have := List.length_filter_le p t
        simp at h
        omega

theorem readCache_fst (file : List (String × CacheEntry)) (today : String) :
    (readCache file today).1 = purgeCache file today := by
  unfold readCache
  split <;> rfl

theorem readCache_snd_sub {file : List (String × CacheEntry)} {today : String}
    {q : String × CacheEntry} (h : q ∈ (readCache file today).2) : q ∈ file := by
  unfold readCache at h
  split at h
  · exact purgeCache_sub h
  · exact h

/-- Sample cache entry for today used by concrete witnesses. -/
def ceToday : CacheEntry :=
  { date := "2025-01-23", sign_count := 10, get_traffic := 50,
    total_traffic := 500, message := "签到成功", timestamp := "T0" }

/-- Sample cache entry for the previous day used by concrete witnesses. -/
def ceYesterday : CacheEntry :=
  { date := "2025-01-22", sign_count := 9, get_traffic := 40,
    total_traffic := 450, message := "签到成功", timestamp := "T1" }

theorem jsNatFalsy_zero (n : Nat) : jsNatFalsy n 0 = n := by
  unfold jsNatFalsy
  split <;> omega

theorem getFromCache_snd_sub {file : List (String × CacheEntry)}
    {username today : String} {q : String × CacheEntry}
    (h : q ∈ (getFromCache file username today).2) : q ∈ file := by
  unfold getFromCache at h
  split at h
  · split at h <;> exact readCache_snd_sub h
  · exact readCache_snd_sub h

theorem failureOutcome_isFirstSign (u : String) (r : SignResult) :
    (failureOutcome u r).isFirstSign = false := rfl

theorem notFoundOrOther_isFirstSign (u : String) (r : SignResult) :
    (notFoundOrOther u r).isFirstSign = false := by
  unfold notFoundOrOther
  cases r.data with
  | none => rfl
  | some body => by_cases hb : body.message = some "用户不存在" <;> simp [hb]

theorem psr_fail {result : SignResult} (u : String)
    (file : List (String × CacheEntry)) (d ts : String)
    (hs : result.success = false) :
    processSignResult u result file d ts = (failureOutcome u result, file) := by
  unfold processSignResult
  rw [if_pos hs]

theorem psr_data_none {result : SignResult} (u : String)
    (file : List (String × CacheEntry)) (d ts : String)
    (hs : ¬ result.success = false) (hd : result.data = none) :
    processSignResult u result file d ts = (notFoundOrOther u result, file) := by
  unfold processSignResult
  rw [if_neg hs, hd]

theorem psr_body_none {result : SignResult} {body : RespBody} (u : String)
    (file : List (String × CacheEntry)) (d ts : String)
    (hs : ¬ result.success = false) (hd : result.data = some body)
    (hdd : body.data = none) :
    processSignResult u result file d ts = (notFoundOrOther u result, file) := by
  unfold processSignResult
  rw [if_neg hs, hd]
  simp only [hdd]

theorem psr_first {result : SignResult} {body : RespBody} {sd : SignData}
    (u : String) (file : List (String × CacheEntry)) (d ts : String)
    (hs : ¬ result.success = false) (hd : result.data = some body)
    (hdd : body.data = some sd)
    (hcond : result.status = some 200 ∧ sd.sign_status = some true ∧
      sd.get_traffic.isSome = true ∧ sd.total_traffic.isSome = true) :
    processSignResult u result file d ts =
      (firstSignOutcome u sd,
       saveToCacheIfFirstSign file u (some sd) true d ts) := by
  unfold processSignResult
  rw [if_neg hs, hd]
  simp only [hdd]
  rw [if_pos hcond]

theorem psr_cached {result : SignResult} {body : RespBody} {sd : SignData}
    {ce : CacheEntry} {file2 : List (String × CacheEntry)} (u : String)
    (file : List (String × CacheEntry)) (d ts : String)
    (hs : ¬ result.success = false) (hd : result.data = some body)
    (hdd : body.data = some sd)
    (hncond : ¬ (result.status = some 200 ∧ sd.sign_status = some true ∧
      sd.get_traffic.isSome = true ∧ sd.total_traffic.isSome = true))
    (hflag : sd.sign_status = some true)
    (hgc : getFromCache file u d = (some ce, file2)) :
    processSignResult u result file d ts = (cachedOutcome u ce, file2) := by
  unfold processSignResult
  rw [if_neg hs, hd]
  simp only [hdd]
  rw [if_neg hncond, if_pos hflag, hgc]

theorem psr_limited {result : SignResult} {body : RespBody} {sd : SignData}
    {file2 : List (String × CacheEntry)} (u : String)
    (file : List (String × CacheEntry)) (d ts : String)
    (hs : ¬ result.success = false) (hd : result.data = some body)
    (hdd : body.data = some sd)
    (hncond : ¬ (result.status = some 200 ∧ sd.sign_status = some true ∧
      sd.get_traffic.isSome = true ∧ sd.total_traffic.isSome = true))
    (hflag : sd.sign_status = some true)
    (hgc : getFromCache file u d = (none, file2)) :
    processSignResult u result file d ts = (limitedOutcome u sd, file2) := by
  unfold processSignResult
  rw [if_neg hs, hd]
  simp only [hdd]
  rw [if_neg hncond, if_pos hflag, hgc]

theorem psr_no_flag {result : SignResult} {body : RespBody} {sd : SignData}
    (u : String) (file : List (String × CacheEntry)) (d ts : String)
    (hs : ¬ result.success = false) (hd : result.data = some body)
    (hdd : body.data = some sd)
    (hncond : ¬ (result.status = some 200 ∧ sd.sign_status = some true ∧
      sd.get_traffic.isSome = true ∧ sd.total_traffic.isSome = true))
    (hnflag : ¬ sd.sign_status = some true) :
    processSignResult u result file d ts = (notFoundOrOther u result, file) := by
  unfold processSignResult
  rw [if_neg hs, hd]
  simp only [hdd]
  rw [if_neg hncond, if_neg hnflag]

/-- C7: for every cache-file content, the mapping returned by readCache
contains no entry whose date differs from the current day, and the purge is
idempotent: a second readCache on the same day returns the same mapping and
leaves the same file content as the first. -/
theorem C7_readCache_purges_and_idempotent
    (file : List (String × CacheEntry)) (today : String) :
    (∀ p ∈ (readCache file today).1, p.2.date = today) ∧
    readCache ((readCache file today).2) today = readCache file today := by
  constructor
  · intro p hp
    rw [readCache_fst] at hp
    exact purgeCache_mem_date hp
  · by_cases h : (purgeCache file today).length = file.length
    · have heq : purgeCache file today = file := filter_length_eq _ _ h
      simp [readCache, heq]
    · have hsnd : (readCache file today).2 = purgeCache file today := by
        unfold readCache
        simp [h]
      rw [hsnd]
      unfold readCache
      rw [purgeCache_idem]
      simp [h]

/-- Witness for C7 at a concrete two-entry cache file containing one stale
entry: the surviving entry's date is today and the second read agrees with
the first. -/
theorem C7_witness :
    (ceToday.date = "2025-01-23") ∧
    readCache ((readCache [("a", ceToday), ("b", ceYesterday)] "2025-01-23").2)
        "2025-01-23" =
      readCache [("a", ceToday), ("b", ceYesterday)] "2025-01-23" := by
  have h := C7_readCache_purges_and_idempotent
    [("a", ceToday), ("b", ceYesterday)] "2025-01-23"
  exact ⟨h.1 ("a", ceToday) (by decide), h.2⟩

/-- C10: readCache's purge depends only on the date field and never on the
configured account list (readCache takes no account-list input at all):
every entry dated today survives unchanged in the returned mapping and in
the resulting file content, even when its key is absent from the configured
account list. -/
theorem C10_readCache_keeps_today_entries_of_unlisted_accounts
    (file : List (String × CacheEntry)) (today : String)
    (usersEnv : Option String) (p : String × CacheEntry)
    (hmem : p ∈ file) (hdate : p.2.date = today)
    (_habsent : p.1 ∉ getUserList usersEnv) :
    p ∈ (readCache file today).1 ∧ p ∈ (readCache file today).2 := by
  have h1 : p ∈ purgeCache file today :=
    List.mem_filter.mpr ⟨hmem, by simp [hdate]⟩
  refine ⟨by rw [readCache_fst]; exact h1, ?_⟩
  unfold readCache
  split
  · exact h1
  · exact hmem

theorem find?_map_replace (cache : List (String × CacheEntry)) (u : String)
    (e : CacheEntry) (h : cache.any (fun p => p.1 == u) = true) :
    (cache.map (fun p => if p.1 == u then (u, e) else p)).find?
        (fun p => p.1 == u) = some (u, e) := by
  induction cache with
  | nil => simp at h
  | cons a t ih =>
      by_cases ha : a.1 = u
      · simp [ha]
      · have hany : t.any (fun p => p.1 == u) = true := by
          simp only [List.any_cons] at h
          simpa [ha] using h
        simpa [ha] using ih hany

theorem find?_none_append (cache : List (String × CacheEntry)) (u : String)
    (e : CacheEntry) (h : cache.any (fun p => p.1 == u) = false) :
    (cache ++ [(u, e)]).find? (fun p => p.1 == u) = some (u, e) := by
  induction cache with
  | nil => simp
  | cons a t ih =>
      simp only [List.any_cons, Bool.or_eq_false_iff] at h
      simpa [h.1] using ih h.2

theorem objLookup_objInsert_self (cache : List (String × CacheEntry))
    (u : String) (e : CacheEntry) :
    objLookup (objInsert cache u e) u = some e := by
  unfold objInsert objLookup
  by_cases h : cache.any (fun p => p.1 == u) = true
  · simp only [h, if_true, find?_map_replace cache u e h]
  · have hfalse : cache.any (fun p => p.1 == u) = false := by
      cases hb : cache.any (fun p => p.1 == u) with
      | true => exact absurd hb h
      | false => rfl
    rw [if_neg h, find?_none_append cache u e hfalse]

theorem objLookup_purge_date {file : List (String × CacheEntry)}
    {today u : String} {e : CacheEntry}
    (h : objLookup (purgeCache file today) u = some e) : e.date = today := by
  unfold objLookup at h
  cases hf : (purgeCache file today).find? (fun p => p.1 == u) with
  | none => rw [hf] at h; simp at h
  | some p =>
      rw [hf] at h
      have hp : p ∈ purgeCache file today := List.mem_of_find?_eq_some hf
      have := purgeCache_mem_date hp
      simp only [Option.some.injEq] at h
      rw [← h]
      exact this

theorem performSign_answered (env : Nat → Attempt) (rc st : Nat)
    (body : Option RespBody) (h : env rc = Attempt.answered st body) :
    performSign env rc =
      ({ success := true, status := some st, data := body,
         error := none, code := none }, []) := by
  unfold performSign
  rw [h]

theorem performSign_retry (env : Nat → Attempt) (rc : Nat) (msg : String)
    (code : Option String) (h : env rc = Attempt.transportError msg code)
    (hr : rc < CONFIG_MAX_RETRY ∧ isRetryableError msg code = true) :
    performSign env rc =
      ((performSign env (rc + 1)).1,
       CONFIG_RETRY_DELAY :: (performSign env (rc + 1)).2) := by
  conv_lhs => rw [performSign.eq_def]
  rw [h]
  dsimp only
  rw [dif_pos hr]

theorem performSign_stop (env : Nat → Attempt) (rc : Nat) (msg : String)
    (code : Option String) (h : env rc = Attempt.transportError msg code)
    (hr : ¬ (rc < CONFIG_MAX_RETRY ∧ isRetryableError msg code = true)) :
    performSign env rc =
      ({ success := false, status := none, data := none,
         error := some msg, code := code }, []) := by
  unfold performSign
  rw [h]
  dsimp only
  rw [dif_neg hr]

theorem performSign_delays_bound (env : Nat → Attempt) :
    ∀ k rc, CONFIG_MAX_RETRY - rc ≤ k → (performSign env rc).2.length ≤ k := by
  intro k
  induction k with
  | zero =>
      intro rc hrc
      cases henv : env rc with
      | answered st body =>
          rw [performSign_answered env rc st body henv]
          simp
      | transportError msg code =>
          have hnot : ¬ (rc < CONFIG_MAX_RETRY ∧ isRetryableError msg code = true) := by
            intro hc
            have h1 := hc.1
            simp only [CONFIG_MAX_RETRY] at h1 hrc
            omega
          rw [performSign_stop env rc msg code henv hnot]
          simp
  | succ n ih =>
      intro rc hrc
      cases henv : env rc with
      | answered st body =>
          rw [performSign_answered env rc st body henv]
          simp
      | transportError msg code =>
          by_cases hc : rc < CONFIG_MAX_RETRY ∧ isRetryableError msg code = true
          · rw [performSign_retry env rc msg code henv hc]
            simp only [List.length_cons]
            have hstep : CONFIG_MAX_RETRY - (rc + 1) ≤ n := by
              have h1 := hc.1
              simp only [CONFIG_MAX_RETRY] at h1 hrc ⊢
              omega
            have := ih (rc + 1) hstep
            omega
          · rw [performSign_stop env rc msg code henv hc]
            simp

theorem performSign_delays_value (env : Nat → Attempt) :
    ∀ k rc, CONFIG_MAX_RETRY - rc ≤ k →
      ∀ d ∈ (performSign env rc).2, d = CONFIG_RETRY_DELAY := by
  intro k
  induction k with
  | zero =>
      intro rc hrc d hd
      cases henv : env rc with
      | answered st body =>
          rw [performSign_answered env rc st body henv] at hd
          simp at hd
      | transportError msg code =>
          have hnot : ¬ (rc < CONFIG_MAX_RETRY ∧ isRetryableError msg code = true) := by
            intro hc
            have h1 := hc.1
            simp only [CONFIG_MAX_RETRY] at h1 hrc
            omega
          rw [performSign_stop env rc msg code henv hnot] at hd
          simp at hd
  | succ n ih =>
      intro rc hrc d hd
      cases henv : env rc with
      | answered st body =>
          rw [performSign_answered env rc st body henv] at hd
          simp at hd
      | transportError msg code =>
          by_cases hc : rc < CONFIG_MAX_RETRY ∧ isRetryableError msg code = true
          · rw [performSign_retry env rc msg code henv hc] at hd
            rcases List.mem_cons.mp hd with h | h
            · exact h
            · have hstep : CONFIG_MAX_RETRY - (rc + 1) ≤ n := by
                have h1 := hc.1
                simp only [CONFIG_MAX_RETRY] at h1 hrc ⊢
                omega
              exact ih (rc + 1) hstep d h
          · rw [performSign_stop env rc msg code henv hc] at hd
            simp at hd

/-- C3: performSign retries only retryable transport errors (codes
ECONNRESET, ETIMEDOUT, ENOTFOUND or a message containing timeout), waiting
CONFIG_RETRY_DELAY (2000 ms) before each retry, at most CONFIG_MAX_RETRY
(3) times beyond the initial attempt: every run performs at most 3 delays,
each of 2000 ms; two consecutive retryable failures followed by an answered
response yield a success result; retryable transport failure on all 4
attempts yields a failure result carrying the last error's message and
code; an answered HTTP 400 response is accepted immediately and never
retried (the result is determined by attempt 0 alone). -/
theorem C3_retry_policy (env : Nat → Attempt) :
    ((performSign env 0).2.length ≤ CONFIG_MAX_RETRY ∧
      ∀ d ∈ (performSign env 0).2, d = CONFIG_RETRY_DELAY) ∧
    (∀ m0 c0 m1 c1 st body,
      env 0 = Attempt.transportError m0 c0 → isRetryableError m0 c0 = true →
      env 1 = Attempt.transportError m1 c1 → isRetryableError m1 c1 = true →
      env 2 = Attempt.answered st body →
      performSign env 0 =
        ({ success := true, status := some st, data := body,
           error := none, code := none },
         [CONFIG_RETRY_DELAY, CONFIG_RETRY_DELAY])) ∧
    (∀ ms : Nat → String, ∀ cs : Nat → Option String,
      (∀ i, i ≤ CONFIG_MAX_RETRY →
        env i = Attempt.transportError (ms i) (cs i) ∧
        isRetryableError (ms i) (cs i) = true) →
      performSign env 0 =
        ({ success := false, status := none, data := none,
           error := some (ms CONFIG_MAX_RETRY), code := cs CONFIG_MAX_RETRY },
         [CONFIG_RETRY_DELAY, CONFIG_RETRY_DELAY, CONFIG_RETRY_DELAY])) ∧
    (∀ st body, env 0 = Attempt.answered st body →
      performSign env 0 =
        ({ success := true, status := some st, data := body,
           error := none, code := none }, [])) := by
  refine ⟨⟨performSign_delays_bound env CONFIG_MAX_RETRY 0 (by decide),
    performSign_delays_value env CONFIG_MAX_RETRY 0 (by decide)⟩, ?_, ?_, ?_⟩
  · intro m0 c0 m1 c1 st body h0 hr0 h1 hr1 h2
    rw [performSign_retry env 0 m0 c0 h0 ⟨by decide, hr0⟩,
      performSign_retry env 1 m1 c1 h1 ⟨by decide, hr1⟩,
      performSign_answered env 2 st body h2]
  · intro ms cs hall
    have hnot : ¬ (CONFIG_MAX_RETRY < CONFIG_MAX_RETRY ∧
        isRetryableError (ms CONFIG_MAX_RETRY) (cs CONFIG_MAX_RETRY) = true) := by
      intro hc
      exact absurd hc.1 (by decide)
    rw [performSign_retry env 0 (ms 0) (cs 0) (hall 0 (by decide)).1
        ⟨by decide, (hall 0 (by decide)).2⟩,
      performSign_retry env 1 (ms 1) (cs 1) (hall 1 (by decide)).1
        ⟨by decide, (hall 1 (by decide)).2⟩,
      performSign_retry env 2 (ms 2) (cs 2) (hall 2 (by decide)).1
        ⟨by decide, (hall 2 (by decide)).2⟩,
      performSign_stop env 3 (ms 3) (cs 3) (hall 3 (by decide)).1 hnot]
    rfl
  · intro st body h0
    exact performSign_answered env 0 st body h0

/-- Environment with two retryable transport failures followed by an
answered HTTP 200 response, for the C3 witness. -/
def c3Env : Nat → Attempt := fun i =>
  if i = 0 then Attempt.transportError "timeout of 12000ms exceeded" (some "ETIMEDOUT")
  else if i = 1 then Attempt.transportError "read ECONNRESET" (some "ECONNRESET")
  else Attempt.answered 200 none

/-- Witness for C3: two retryable failures then an answered response give a
success result after two 2000 ms delays. -/
theorem C3_witness :
    performSign c3Env 0 =
      ({ success := true, status := some 200, data := none,
         error := none, code := none },
       [CONFIG_RETRY_DELAY, CONFIG_RETRY_DELAY]) :=
  (C3_retry_policy c3Env).2.1 "timeout of 12000ms exceeded" (some "ETIMEDOUT")
    "read ECONNRESET" (some "ECONNRESET") 200 none
    (by decide) (by decide) (by decide) (by decide) (by decide)

theorem formatNotifyMessage_total_line (results : List Outcome) (now : String) :
    ∃ pre post, formatNotifyMessage results now =
      pre ++ ("• 总账号数: " ++ Nat.repr (reportTotalCount results) ++ " 个\n") ++
        post := by
  exact ⟨_, _, rfl⟩

/-- Counterexample to C2 as stated: the configured list alice&alice
contributes two entries to the report's total, while the spec's
deduplicated count is one, so the total does not equal the deduplicated
list length. -/
theorem C2_counterexample :
    reportTotalCount (runResults (getUserList (some "alice&alice")) sampleOutcome) = 2 ∧
    (getUserListSpec "alice&alice").length = 1 ∧
    reportTotalCount (runResults (getUserList (some "alice&alice")) sampleOutcome) ≠
      (getUserListSpec "alice&alice").length := by
  decide

/-- C2 amended: for every non-empty configured account-list string, the
aggregate report's total count equals the number of entries after
splitting on newline or ampersand and stripping blanks, with duplicates
counted separately (the source never deduplicates, so an input containing
the same username twice contributes two to the total); the formatted
report renders exactly that count in its total line. -/
theorem C2_amended_total_counts_duplicates (s : String)
    (outcomeOf : String → Outcome) (now : String) (_hne : s ≠ "") :
    reportTotalCount (runResults (getUserList (some s)) outcomeOf) =
      (getUserList (some s)).length ∧
    ∃ pre post,
      formatNotifyMessage (runResults (getUserList (some s)) outcomeOf) now =
        pre ++ ("• 总账号数: " ++ Nat.repr ((getUserList (some s)).length) ++
          " 个\n") ++ post := by
  have hlen : reportTotalCount (runResults (getUserList (some s)) outcomeOf) =
      (getUserList (some s)).length := by
    unfold reportTotalCount runResults
    exact List.length_map _ _
  refine ⟨hlen, ?_⟩
  obtain ⟨pre, post, hp⟩ :=
    formatNotifyMessage_total_line (runResults (getUserList (some s)) outcomeOf) now
  exact ⟨pre, post, by rw [hp, hlen]⟩

/-- Witness for the amended C2 at the concrete list alice&bob. -/
theorem C2_witness :
    reportTotalCount (runResults (getUserList (some "alice&bob")) sampleOutcome) =
      (getUserList (some "alice&bob")).length :=
  (C2_amended_total_counts_duplicates "alice&bob" sampleOutcome "NOW"
    (by decide)).1

/-- Counterexample to C1 as stated: on an answered HTTP 200 response whose
body has sign_status false together with numeric get_traffic and
total_traffic fields, the cache variant of processSignResult does not
classify the account as SUCCESS_FIRST: the outcome is the diagnostic
failure (success false, isFirstSign false, dataSource error) and no
day-cache entry is written. -/
theorem C1_counterexample :
    (processSignResult "alice" c1FalseResult [] "2025-01-23" "T0").1.dataSource ≠ "api" ∧
    (processSignResult "alice" c1FalseResult [] "2025-01-23" "T0").1.isFirstSign = false ∧
    (processSignResult "alice" c1FalseResult [] "2025-01-23" "T0").1.success = false ∧
    (processSignResult "alice" c1FalseResult [] "2025-01-23" "T0").2 = [] := by
  decide

/-- C1 amended: for every answered HTTP 200 response whose body has
sign_status true (rather than false) together with numeric get_traffic and
total_traffic fields, processSignResult (cache variant) classifies the
account as SUCCESS_FIRST (success true, isFirstSign true, dataSource api)
and a day-cache entry keyed by that username with date equal to the current
day is written. -/
theorem C1_amended_first_sign_writes_cache (username : String)
    (result : SignResult) (file : List (String × CacheEntry))
    (today nowTs : String) (body : RespBody) (sd : SignData)
    (hs : result.success = true) (hst : result.status = some 200)
    (hd : result.data = some body) (hdd : body.data = some sd)
    (hflag : sd.sign_status = some true)
    (hg : sd.get_traffic.isSome = true) (ht : sd.total_traffic.isSome = true) :
    (processSignResult username result file today nowTs).1 =
      firstSignOutcome username sd ∧
    (processSignResult username result file today nowTs).1.success = true ∧
    (processSignResult username result file today nowTs).1.isFirstSign = true ∧
    (processSignResult username result file today nowTs).1.dataSource = "api" ∧
    objLookup (processSignResult username result file today nowTs).2 username =
      some { date := today, sign_count := jsNatOr sd.sign_count 0,
             get_traffic := jsNatOr sd.get_traffic 0,
             total_traffic := jsNatOr sd.total_traffic 0,
             message := jsStrOr sd.message "签到成功", timestamp := nowTs } := by
  have hs2 : ¬ result.success = false := by rw [hs]; simp
  have hred := psr_first username file today nowTs hs2 hd hdd ⟨hst, hflag, hg, ht⟩
  rw [hred]
  refine ⟨rfl, rfl, rfl, rfl, ?_⟩
  unfold saveToCacheIfFirstSign
  rw [if_neg (by simp)]
  exact objLookup_objInsert_self _ _ _

/-- Witness for the amended C1 at a concrete first-sign response. -/
theorem C1_witness :
    (processSignResult "alice" c1TrueResult [] "2025-01-23" "T0").1.dataSource = "api" ∧
    objLookup (processSignResult "alice" c1TrueResult [] "2025-01-23" "T0").2 "alice" =
      some { date := "2025-01-23", sign_count := 10, get_traffic := 50,
             total_traffic := 500, message := "签到成功", timestamp := "T0" } := by
  have h := C1_amended_first_sign_writes_cache "alice" c1TrueResult []
    "2025-01-23" "T0" _ _ rfl rfl rfl rfl rfl rfl rfl
  refine ⟨h.2.2.2.1, ?_⟩
  rw [h.2.2.2.2]
  decide

/-- C5: for an account with a same-day cache entry, an answered response
whose body signals already-signed (sign_status true) but lacks the full
numeric traffic fields is classified SUCCESS_CACHED (dataSource cache) and
its details show exactly the cached sign_count, get_traffic and
total_traffic numbers, not zeros or API-provided substitutes. -/
theorem C5_cached_outcome_uses_cached_numbers (username : String)
    (result : SignResult) (file : List (String × CacheEntry))
    (today nowTs : String) (body : RespBody) (sd : SignData) (ce : CacheEntry)
    (hs : result.success = true) (hd : result.data = some body)
    (hdd : body.data = some sd) (hflag : sd.sign_status = some true)
    (hmiss : sd.get_traffic = none ∨ sd.total_traffic = none)
    (hcache : objLookup (purgeCache file today) username = some ce) :
    (processSignResult username result file today nowTs).1 =
      cachedOutcome username ce ∧
    (processSignResult username result file today nowTs).1.success = true ∧
    (processSignResult username result file today nowTs).1.dataSource = "cache" ∧
    (processSignResult username result file today nowTs).1.details =
      jsStrFalsy ce.message "今日已签到" ++ "\n" ++
      "累计签到: " ++ Nat.repr ce.sign_count ++ " 天\n" ++
      "获得流量: " ++ Nat.repr ce.get_traffic ++ " MB\n" ++
      "总流量: " ++ Nat.repr ce.total_traffic ++ " MB" := by
  have hs2 : ¬ result.success = false := by rw [hs]; simp
  have hncond : ¬ (result.status = some 200 ∧ sd.sign_status = some true ∧
      sd.get_traffic.isSome = true ∧ sd.total_traffic.isSome = true) := by
    rcases hmiss with h | h <;> simp [h]
  have hdate : ce.date = today := objLookup_purge_date hcache
  have hgc : getFromCache file username today =
      (some ce, (readCache file today).2) := by
    unfold getFromCache
    rw [readCache_fst, hcache]
    simp [hdate]
  have hred := psr_cached username file today nowTs hs2 hd hdd hncond hflag hgc
  rw [hred]
  refine ⟨rfl, rfl, rfl, ?_⟩
  simp only [cachedOutcome, jsNatFalsy_zero]

/-- Witness for C5 at a concrete already-signed response with a same-day
cache entry: the details carry the cached numbers 10, 50 and 500. -/
theorem C5_witness :
    (processSignResult "alice" c9Result400 [("alice", ceToday)]
        "2025-01-23" "T9").1.dataSource = "cache" ∧
    (processSignResult "alice" c9Result400 [("alice", ceToday)]
        "2025-01-23" "T9").1.details =
      "签到成功\n累计签到: 10 天\n获得流量: 50 MB\n总流量: 500 MB" := by
  have h := C5_cached_outcome_uses_cached_numbers "alice" c9Result400
    [("alice", ceToday)] "2025-01-23" "T9" _ _ ceToday
    rfl rfl rfl rfl (Or.inl rfl) (by decide)
  refine ⟨h.2.2.1, ?_⟩
  rw [h.2.2.2]
  decide

/-- C6: for an account with no same-day cache entry, an answered response
whose body signals already-signed (sign_status true) but lacks the full
numeric traffic fields is classified SUCCESS_LIMITED (dataSource
api_limited), and its details consist of the cumulative sign count followed
by the explicit note that traffic data is unavailable; no traffic numbers
appear. -/
theorem C6_limited_outcome_no_fabricated_traffic (username : String)
    (result : SignResult) (file : List (String × CacheEntry))
    (today nowTs : String) (body : RespBody) (sd : SignData)
    (hs : result.success = true) (hd : result.data = some body)
    (hdd : body.data = some sd) (hflag : sd.sign_status = some true)
    (hmiss : sd.get_traffic = none ∨ sd.total_traffic = none)
    (hcache : objLookup (purgeCache file today) username = none) :
    (processSignResult username result file today nowTs).1 =
      limitedOutcome username sd ∧
    (processSignResult username result file today nowTs).1.success = true ∧
    (processSignResult username result file today nowTs).1.dataSource = "api_limited" ∧
    (processSignResult username result file today nowTs).1.details =
      jsStrOr sd.message "今日已签到" ++ "\n" ++
      "累计签到: " ++ Nat.repr (jsNatOr sd.sign_count 0) ++ " 天\n" ++
      "(流量信息需首次签到获取)" := by
  have hs2 : ¬ result.success = false := by rw [hs]; simp
  have hncond : ¬ (result.status = some 200 ∧ sd.sign_status = some true ∧
      sd.get_traffic.isSome = true ∧ sd.total_traffic.isSome = true) := by
    rcases hmiss with h | h <;> simp [h]
  have hgc : getFromCache file username today =
      (none, (readCache file today).2) := by
    unfold getFromCache
    rw [readCache_fst, hcache]
  have hred := psr_limited username file today nowTs hs2 hd hdd hncond hflag hgc
  rw [hred]
  exact ⟨rfl, rfl, rfl, rfl⟩

/-- Witness for C6 at a concrete already-signed response with an empty
cache file: the details are exactly the count plus the unavailability note. -/
theorem C6_witness :
    (processSignResult "alice" c9Result400 [] "2025-01-23" "T9").1.dataSource =
      "api_limited" ∧
    (processSignResult "alice" c9Result400 [] "2025-01-23" "T9").1.details =
      "今日已签到\n累计签到: 10 天\n(流量信息需首次签到获取)" := by
  have h := C6_limited_outcome_no_fabricated_traffic "alice" c9Result400 []
    "2025-01-23" "T9" _ _ rfl rfl rfl rfl (Or.inl rfl) (by decide)
  refine ⟨h.2.2.1, ?_⟩
  rw [h.2.2.2]
  decide

/-- C9: in the cache variant a SUCCESS_FIRST classification (and hence a
cache write) can arise only from an HTTP 200 response whose body has
sign_status true and both traffic fields numeric; for every HTTP 400
response the account is never classified as first sign and no new cache
entry is written (everything in the resulting file already was in the
old file). -/
theorem C9_first_sign_only_from_200 (username : String) (result : SignResult)
    (file : List (String × CacheEntry)) (today nowTs : String) :
    ((processSignResult username result file today nowTs).1.isFirstSign = true →
      result.status = some 200 ∧ ∃ body sd, result.data = some body ∧
        body.data = some sd ∧ sd.sign_status = some true ∧
        sd.get_traffic.isSome = true ∧ sd.total_traffic.isSome = true) ∧
    (result.status = some 400 →
      (processSignResult username result file today nowTs).1.isFirstSign = false ∧
      ∀ q ∈ (processSignResult username result file today nowTs).2, q ∈ file) := by
  by_cases hs : result.success = false
  · rw [psr_fail username file today nowTs hs]
    exact ⟨fun hfs => absurd hfs (by simp [failureOutcome]),
      fun _ => ⟨rfl, fun q hq => hq⟩⟩
  · cases hd : result.data with
    | none =>
        rw [psr_data_none username file today nowTs hs hd]
        exact ⟨fun hfs => absurd hfs (by simp [notFoundOrOther_isFirstSign]),
          fun _ => ⟨notFoundOrOther_isFirstSign _ _, fun q hq => hq⟩⟩
    | some body =>
        cases hdd : body.data with
        | none =>
            rw [psr_body_none username file today nowTs hs hd hdd]
            exact ⟨fun hfs => absurd hfs (by simp [notFoundOrOther_isFirstSign]),
              fun _ => ⟨notFoundOrOther_isFirstSign _ _, fun q hq => hq⟩⟩
        | some sd =>
            by_cases hcond : result.status = some 200 ∧ sd.sign_status = some true ∧
                sd.get_traffic.isSome = true ∧ sd.total_traffic.isSome = true
            · rw [psr_first username file today nowTs hs hd hdd hcond]
              refine ⟨fun _ => ⟨hcond.1, body, sd, rfl, hdd, hcond.2.1,
                hcond.2.2.1, hcond.2.2.2⟩, ?_⟩
              intro h400
              rw [hcond.1] at h400
              simp at h400
            · by_cases hflag : sd.sign_status = some true
              · cases hgc : getFromCache file username today with
                | mk ofst osnd =>
                    cases ofst with
                    | some ce =>
                        rw [psr_cached username file today nowTs hs hd hdd
                          hcond hflag hgc]
                        refine ⟨fun hfs => absurd hfs (by simp [cachedOutcome]),
                          fun _ => ⟨rfl, fun q hq => ?_⟩⟩
                        exact getFromCache_snd_sub (by rw [hgc]; exact hq)
                    | none =>
                        rw [psr_limited username file today nowTs hs hd hdd
                          hcond hflag hgc]
                        refine ⟨fun hfs => absurd hfs (by simp [limitedOutcome]),
                          fun _ => ⟨rfl, fun q hq => ?_⟩⟩
                        exact getFromCache_snd_sub (by rw [hgc]; exact hq)
              · rw [psr_no_flag username file today nowTs hs hd hdd hcond hflag]
                exact ⟨fun hfs => absurd hfs (by simp [notFoundOrOther_isFirstSign]),
                  fun _ => ⟨notFoundOrOther_isFirstSign _ _, fun q hq => hq⟩⟩

/-- Witness for C9: at a concrete HTTP 400 already-signed response the
outcome is not a first sign, and at a concrete first-sign outcome the
response status was indeed HTTP 200. -/
theorem C9_witness :
    (processSignResult "bob" c9Result400 [] "2025-01-23" "T0").1.isFirstSign = false ∧
    c1TrueResult.status = some 200 := by
  refine ⟨((C9_first_sign_only_from_200 "bob" c9Result400 [] "2025-01-23" "T0").2
    rfl).1, ?_⟩
  exact ((C9_first_sign_only_from_200 "bob" c1TrueResult [] "2025-01-23" "T0").1
    (by decide)).1

/-- Witness for C10: the account carol is not in the configured list
alice&bob, yet carol's today entry survives the purge and the rewrite. -/
theorem C10_witness :
    ("carol", ceToday) ∈
        (readCache [("carol", ceToday), ("dave", ceYesterday)] "2025-01-23").1 ∧
    ("carol", ceToday) ∈
        (readCache [("carol", ceToday), ("dave", ceYesterday)] "2025-01-23").2 :=
  C10_readCache_keeps_today_entries_of_unlisted_accounts
    [("carol", ceToday), ("dave", ceYesterday)] "2025-01-23"
    (some "alice&bob") ("carol", ceToday)
    (by decide) (by decide) (by decide)

end Ybt

namespace Notify

theorem count_pos_eq_any (l : List (String × Bool)) :
    decide (0 < (l.filter (fun r => r.2)).length) = l.any (fun r => r.2) := by
  induction l with
  | nil => rfl
  | cons a t ih =>
      cases hb : a.2 <;>
        simp [List.filter_cons, hb, List.any_cons, ← ih]

theorem serverChan_spec (env : NotifyEnv) (http : String → Bool) (t c : String) :
    serverChanNotify env http t c =
      (if channelEnabled env "Server酱" then (http "Server酱", 1) else (false, 0)) := by
  unfold serverChanNotify channelEnabled
  cases hx : jsTruthyOpt (jsOrOpt env.PUSH_KEY env.SCKEY) <;> simp [hx]

theorem telegram_spec (env : NotifyEnv) (http : String → Bool) (t c : String) :
    telegramNotify env http t c =
      (if channelEnabled env "Telegram" then (http "Telegram", 1) else (false, 0)) := by
  unfold telegramNotify channelEnabled
  cases hx : jsTruthyOpt env.TG_BOT_TOKEN <;>
    cases hy : jsTruthyOpt env.TG_USER_ID <;> simp [hx, hy]

theorem dingTalk_spec (env : NotifyEnv) (http : String → Bool) (t c : String) :
    dingTalkNotify env http t c =
      (if channelEnabled env "钉钉机器人" then (http "钉钉机器人", 1) else (false, 0)) := by
  unfold dingTalkNotify channelEnabled
  cases hx : jsTruthyOpt env.DD_BOT_TOKEN <;> simp [hx]

theorem workWechat_spec (env : NotifyEnv) (http : String → Bool) (t c : String) :
    workWechatNotify env http t c =
      (if channelEnabled env "企业微信" then (http "企业微信", 1) else (false, 0)) := by
  unfold workWechatNotify channelEnabled
  cases hx : jsTruthyOpt env.WW_BOT_KEY <;> simp [hx]

theorem bark_spec (env : NotifyEnv) (http : String → Bool) (t c : String) :
    barkNotify env http t c =
      (if channelEnabled env "Bark" then (http "Bark", 1) else (false, 0)) := by
  unfold barkNotify channelEnabled
  cases hx : jsTruthyOpt env.BARK_PUSH <;> simp [hx]

theorem pushPlus_spec (env : NotifyEnv) (http : String → Bool) (t c : String) :
    pushPlusNotify env http t c =
      (if channelEnabled env "PushPlus" then (http "PushPlus", 1) else (false, 0)) := by
  unfold pushPlusNotify channelEnabled
  cases hx : jsTruthyOpt env.PUSH_PLUS_TOKEN <;> simp [hx]

theorem feishu_spec (env : NotifyEnv) (http : String → Bool) (t c : String) :
    feishuNotify env http t c =
      (if channelEnabled env "飞书" then (http "飞书", 1) else (false, 0)) := by
  unfold feishuNotify channelEnabled
  cases hx : jsTruthyOpt env.FEISHU_BOT_TOKEN <;> simp [hx]

theorem notifyMethod_spec (m : String × ChannelFun) (hm : m ∈ notifyMethods)
    (env : NotifyEnv) (http : String → Bool) (t c : String) :
    m.2 env http t c =
      (if channelEnabled env m.1 then (http m.1, 1) else (false, 0)) := by
  simp only [notifyMethods, List.mem_cons, List.not_mem_nil, or_false] at hm
  rcases hm with rfl | rfl | rfl | rfl | rfl | rfl | rfl
  · exact serverChan_spec env http t c
  · exact telegram_spec env http t c
  · exact dingTalk_spec env http t c
  · exact workWechat_spec env http t c
  · exact bark_spec env http t c
  · exact pushPlus_spec env http t c
  · exact feishu_spec env http t c

/-- Environment with Telegram and DingTalk configured, for C4 inputs. -/
def c4Env : NotifyEnv :=
  { emptyEnv with
    TG_BOT_TOKEN := some "tok"
    TG_USER_ID := some "uid"
    DD_BOT_TOKEN := some "ddtok" }

/-- HTTP oracle under which only the Telegram call delivers. -/
def c4Http : String → Bool := fun n => n == "Telegram"

/-- Counterexample to C4 as stated: with one succeeding enabled channel
(Telegram) and one failing enabled channel (DingTalk), sendNotify called
with an empty title and an empty body returns false (and performs no HTTP
call at all), because of the empty-input guard at its entry. -/
theorem C4_counterexample :
    channelEnabled c4Env "Telegram" = true ∧ c4Http "Telegram" = true ∧
    channelEnabled c4Env "钉钉机器人" = true ∧ c4Http "钉钉机器人" = false ∧
    (sendNotify c4Env c4Http "" "").returned = false ∧
    (sendNotify c4Env c4Http "" "").httpCalls = 0 := by
  decide

/-- C4 amended: sendNotify returns true iff at least one channel invocation
reported success; with zero configured channels it returns false and
performs zero HTTP calls; and, provided the title or the body is non-empty,
with one failing and one succeeding enabled channel it returns true.  The
embedding is a total function (every per-channel exception is caught inside
the channel and the fan-out), so no exception escapes the boundary. -/
theorem C4_amended_broadcast (env : NotifyEnv) (http : String → Bool)
    (title content : String) :
    ((sendNotify env http title content).returned =
      (sendNotify env http title content).results.any (fun r => r.2)) ∧
    ((∀ m ∈ notifyMethods, channelEnabled env m.1 = false) →
      (sendNotify env http title content).returned = false ∧
      (sendNotify env http title content).httpCalls = 0) ∧
    ((jsTruthyStr title = true ∨ jsTruthyStr content = true) →
      ∀ m1 ∈ notifyMethods, ∀ m2 ∈ notifyMethods,
        channelEnabled env m1.1 = true → channelEnabled env m2.1 = true →
        http m1.1 = false → http m2.1 = true →
        (sendNotify env http title content).returned = true) := by
  refine ⟨?_, ?_, ?_⟩
  · unfold sendNotify
    split
    · rfl
    · dsimp only
      exact count_pos_eq_any _
  · intro hall
    unfold sendNotify
    split
    · exact ⟨rfl, rfl⟩
    · dsimp only
      constructor
      · rw [count_pos_eq_any]
        apply List.any_eq_false.mpr
        intro r hr
        rcases List.mem_map.mp hr with ⟨o, ho, rfl⟩
        rcases List.mem_map.mp ho with ⟨m, hm, rfl⟩
        rw [notifyMethod_spec m hm, if_neg (by rw [hall m hm]; simp)]
        simp
      · apply List.sum_eq_zero
        intro x hx
        rcases List.mem_map.mp hx with ⟨o, ho, rfl⟩
        rcases List.mem_map.mp ho with ⟨m, hm, rfl⟩
        rw [notifyMethod_spec m hm, if_neg (by rw [hall m hm]; simp)]
  · intro hor m1 hm1 m2 hm2 he1 he2 hf1 ht2
    have hcond : ¬ (jsTruthyStr title = false ∧ jsTruthyStr content = false) := by
      rcases hor with h | h <;> simp [h]
    unfold sendNotify
    rw [if_neg hcond]
    dsimp only
    rw [count_pos_eq_any]
    apply List.any_eq_true.mpr
    refine ⟨(m2.1, (m2.2 env http (titleOrDefault title)
      (truncateContent content)).1), ?_, ?_⟩
    · apply List.mem_map.mpr
      exact ⟨(m2.1, m2.2 env http (titleOrDefault title) (truncateContent content)),
        List.mem_map.mpr ⟨m2, hm2, rfl⟩, rfl⟩
    · rw [notifyMethod_spec m2 hm2, if_pos he2]
      exact ht2

/-- Witness for the amended C4: with Telegram succeeding and DingTalk
failing and a non-empty title, sendNotify returns true; and with no
channel configured it returns false with zero HTTP calls. -/
theorem C4_witness :
    (sendNotify c4Env c4Http "t" "c").returned = true ∧
    (sendNotify emptyEnv c4Http "t" "c").returned = false ∧
    (sendNotify emptyEnv c4Http "t" "c").httpCalls = 0 := by
  refine ⟨?_, ?_⟩
  · exact (C4_amended_broadcast c4Env c4Http "t" "c").2.2 (Or.inl (by decide))
      ("钉钉机器人", dingTalkNotify) (by simp [notifyMethods])
      ("Telegram", telegramNotify) (by simp [notifyMethods])
      (by decide) (by decide) (by decide) (by decide)
  · exact (C4_amended_broadcast emptyEnv c4Http "t" "c").2.1
      (by intro m hm; fin_cases hm <;> rfl)

/-- C8: for every body longer than 4000 characters, sendNotify delivers the
body cut at the 4000-character cap with the trailing truncation marker
appended; the truncation is computed once, before the fan-out, and every
channel invocation receives that same truncated string. -/
theorem C8_truncated_once_before_fanout (env : NotifyEnv)
    (http : String → Bool) (title content : String)
    (hlen : content.length > 4000) :
    (sendNotify env http title content).contentSent =
      truncateContent content ∧
    truncateContent content =
      content.take 4000 ++ "\n\n...(内容过长已截断)" ∧
    (sendNotify env http title content).results =
      notifyMethods.map (fun m => (m.1,
        (m.2 env http (titleOrDefault title) (truncateContent content)).1)) := by
  have hct : jsTruthyStr content = true := by
    unfold jsTruthyStr
    have : content ≠ "" := by
      intro h
      rw [h] at hlen
      simp at hlen
    simp [this]
  have hcond : ¬ (jsTruthyStr title = false ∧ jsTruthyStr content = false) := by
    simp [hct]
  refine ⟨?_, ?_, ?_⟩
  · unfold sendNotify
    rw [if_neg hcond]
  · unfold truncateContent
    rw [if_pos hlen]
  · unfold sendNotify
    rw [if_neg hcond]
    dsimp only
    rw [List.map_map]
    rfl

/-- Long body, 4001 characters, for the C8 witness. -/
def c8LongBody : String := String.mk (List.replicate 4001 'a')

/-- Witness for C8 at a concrete 4001-character body. -/
theorem C8_witness :
    (sendNotify emptyEnv c4Http "t" c8LongBody).contentSent =
      truncateContent c8LongBody ∧
    truncateContent c8LongBody =
      c8LongBody.take 4000 ++ "\n\n...(内容过长已截断)" := by
  have hlen : c8LongBody.length > 4000 := by
    have : c8LongBody.length = 4001 := by
      show (List.replicate 4001 'a').length = 4001
      exact List.length_replicate _ _
    omega
  have h := C8_truncated_once_before_fanout emptyEnv c4Http "t" c8LongBody hlen
  exact ⟨h.1, h.2.1⟩

end Notify
